import Mathlib

/-!
Verification of the token lifecycle manager of `geminiwebtools`
(package `pkg/auth`, enhanced authenticator, with its collaborators in
`pkg/storage` and `pkg/constants`).

The Go source is shallowly embedded as executable Lean functions:

* `time.Time` instants and `time.Duration` values are modelled as `Int`
  nanoseconds; the Go zero `time.Time` (`IsZero`) is modelled as `none` in
  an `Option Int` expiry field.
* Go strings are Lean `String`s; `len` on a Go string (a byte count) is
  `String.utf8ByteSize`.
* `float64` arithmetic in the backoff computation is modelled by exact
  rationals (`ℚ`); the final `time.Duration` truncation is omitted, which
  does not affect the stated order/bound properties.
* The credential store (`FileSystemStore`) is modelled by the observable
  contents of its token file (`FileState`) together with the exact
  load/store/clear behaviour of `pkg/storage/filesystem.go`.
* The network token exchange (`oauth2.TokenSource.Token()`) is an oracle
  parameter (`TransportResult`, one per attempt index).
* Concurrency: `GetValidToken` holds the authenticator write mutex `mu`
  for its whole body after the read-locked fast path, so any group of
  concurrent callers executes as some serial order of calls; the model
  `runCallers` iterates the per-call state transformer accordingly.
  Within one serialized call `refreshState.IsRefreshing` is false at entry
  (it is set and cleared, via defer, inside `refreshTokenWithRetry`), so
  the join path of `waitForRefresh` is modelled separately by an event
  trace (`WaitEvent`).
-/

namespace GeminiAuth

/-- One second in nanoseconds (`time.Second`). -/
def second : Int := 1000000000

/-- One minute in nanoseconds (`time.Minute`). -/
def minute : Int := 60 * second

/-- `constants.TokenRefreshThreshold = 5 * time.Minute`. -/
def TokenRefreshThreshold : Int := 5 * minute

/-- `constants.MinTokenLength = 10`. -/
def MinTokenLength : Nat := 10

/-- `constants.MaxTokenLength = 4096`. -/
def MaxTokenLength : Nat := 4096

/-- Model of `oauth2.Token`: access token, refresh token (empty string means
absent, as in Go), token type, and expiry instant (`none` models the Go zero
`time.Time`, i.e. `Expiry.IsZero()`). -/
structure Token where
  accessToken : String
  refreshToken : String
  tokenType : String
  expiry : Option Int
deriving Repr, DecidableEq

/-- `IsTokenExpired` (auth package): nil or zero-expiry tokens are never
expired; otherwise the token counts as expired when its expiry instant lies
before `now + TokenRefreshThreshold`. -/
def IsTokenExpired (token : Option Token) (now : Int) : Bool :=
  match token with
  | none => false
  | some t =>
    match t.expiry with
    | none => false
    | some e => decide (e < now + TokenRefreshThreshold)

/-- `strings.ContainsAny(s, "\x00\r\n")` from `validateTokenStructure`. -/
def goContainsAnyCtl (s : String) : Bool :=
  s.data.any (fun c => c = '\x00' || c = '\r' || c = '\n')

/-- `validateTokenStructure` (auth package): the exact ordered check chain of
the source, producing the source's error strings. -/
def validateTokenStructure (token : Option Token) : Except String Unit :=
  match token with
  | none => .error "token is nil"
  | some t =>
    if t.accessToken = "" then .error "access token is empty"
    else if t.accessToken.utf8ByteSize < MinTokenLength then .error "access token too short"
    else if t.accessToken.utf8ByteSize > MaxTokenLength then .error "access token too long"
    else if goContainsAnyCtl t.accessToken then .error "access token contains invalid characters"
    else if t.refreshToken ≠ "" then
      if t.refreshToken.utf8ByteSize < MinTokenLength then .error "refresh token too short"
      else if t.refreshToken.utf8ByteSize > MaxTokenLength then .error "refresh token too long"
      else if goContainsAnyCtl t.refreshToken then .error "refresh token contains invalid characters"
      else .ok ()
    else .ok ()

/-- Spec-side token-structure predicate, written from the spec's words
("non-empty access value with length in [MinTokenLength, MaxTokenLength],
none of NUL, CR, LF; a present refresh value satisfies the same length and
character constraints"), to be compared with `validateTokenStructure`. -/
def tokenSpecValid (t : Token) : Prop :=
  t.accessToken ≠ "" ∧
  MinTokenLength ≤ t.accessToken.utf8ByteSize ∧
  t.accessToken.utf8ByteSize ≤ MaxTokenLength ∧
  (∀ c ∈ t.accessToken.data, c ≠ '\x00' ∧ c ≠ '\r' ∧ c ≠ '\n') ∧
  (t.refreshToken = "" ∨
    (MinTokenLength ≤ t.refreshToken.utf8ByteSize ∧
     t.refreshToken.utf8ByteSize ≤ MaxTokenLength ∧
     (∀ c ∈ t.refreshToken.data, c ≠ '\x00' ∧ c ≠ '\r' ∧ c ≠ '\n')))

/-- Model of `RefreshConfig` (auth package). Duration fields are `Int`
nanoseconds; the `float64` fields are exact rationals. -/
structure RefreshConfig where
  backgroundRefreshThreshold : ℚ
  retryMaxAttempts : Nat
  retryBaseDelay : Int
  retryMaxDelay : Int
  retryMultiplier : ℚ
  jitterPercent : ℚ
  gracePeriod : Int
  backgroundRefreshInterval : Int
  refreshLockTimeout : Int
deriving Repr, DecidableEq

/-- The pre-jitter delay of `calculateBackoffDelay`: the exponential
`float64(RetryBaseDelay) * RetryMultiplier^attempt`, capped at
`RetryMaxDelay` exactly as in the source (`if delay > max { delay = max }`). -/
def calcPreJitterDelay (cfg : RefreshConfig) (attempt : Nat) : ℚ :=
  let delay : ℚ := (cfg.retryBaseDelay : ℚ) * cfg.retryMultiplier ^ attempt
  if delay > (cfg.retryMaxDelay : ℚ) then (cfg.retryMaxDelay : ℚ) else delay

/-- `calculateBackoffDelay` (auth package). `r` models the `rand.Float64()`
draw in `[0,1)`; jitter is `delay * JitterPercent * (r*2 - 1)` and the result
is floored at `RetryBaseDelay`, as in the source. -/
def calculateBackoffDelay (cfg : RefreshConfig) (attempt : Nat) (r : ℚ) : ℚ :=
  let delay := calcPreJitterDelay cfg attempt
  let jitter := delay * cfg.jitterPercent * (r * 2 - 1)
  let finalDelay := delay + jitter
  if finalDelay < (cfg.retryBaseDelay : ℚ) then (cfg.retryBaseDelay : ℚ) else finalDelay

/-- `canUseTokenDuringGracePeriod` (auth package): non-nil token with a set
expiry whose `time.Since(expiry) = now - expiry` is at most `GracePeriod`. -/
def canUseTokenDuringGracePeriod (cfg : RefreshConfig) (token : Option Token) (now : Int) : Bool :=
  match token with
  | none => false
  | some t =>
    match t.expiry with
    | none => false
    | some e => decide (now - e ≤ cfg.gracePeriod)

/-- `strings.ToLower` restricted to the per-character mapping (the error
vocabulary is ASCII, where this agrees with Go). -/
def goToLower (s : String) : String := ⟨s.data.map Char.toLower⟩

/-- `strings.Contains(s, sub)`: `sub` occurs as a contiguous substring. -/
def goStringContains (s sub : String) : Bool := decide (sub.data <:+: s.data)

/-- The `retryableErrors` vocabulary of `isRetryableError`, in source order. -/
def retryableErrors : List String :=
  ["timeout", "connection", "network", "temporary", "unavailable", "rate limit",
   "429", "500", "502", "503", "504"]

/-- `isRetryableError` (auth package): `nil` errors (modelled `none`) are not
retryable; otherwise the lowercased message is scanned for the vocabulary. -/
def isRetryableError (err : Option String) : Bool :=
  match err with
  | none => false
  | some msg =>
    let errorStr := goToLower msg
    retryableErrors.any (fun p => goStringContains errorStr p)

/-- Sentinel storage errors of `pkg/storage` plus arbitrary wrapped errors. -/
inductive StorageErr
  | notFound
  | corrupted
  | permission
  | other (msg : String)
deriving Repr, DecidableEq

/-- Rendering of the wrapped errors produced by `loadTokenFromFile` and the
sentinel texts of `pkg/storage/interface.go` (file paths elided). -/
def renderStorageErr : StorageErr → String
  | .notFound => "token file does not exist: storage item not found"
  | .corrupted => "failed to parse token JSON: storage data corrupted"
  | .permission => "storage permission denied"
  | .other m => m

/-- Observable contents of the token file behind `FileSystemStore`. -/
inductive FileState
  | absent
  | corrupt
  | good (t : Token)
deriving Repr, DecidableEq

/-- The `(*oauth2.Token, error)` pair returned by `CredentialStore.LoadToken`. -/
structure LoadOutcome where
  token : Option Token
  err : Option StorageErr
deriving Repr, DecidableEq

/-- `loadTokenFromFile` (`pkg/storage/filesystem.go`): a missing file yields a
nil token together with an error wrapping `ErrStorageNotFound`; unparsable
JSON yields a nil token and an error wrapping `ErrStorageCorrupted`; otherwise
the parsed token with a nil error. -/
def loadTokenFromFile : FileState → LoadOutcome
  | .absent => ⟨none, some .notFound⟩
  | .corrupt => ⟨none, some .corrupted⟩
  | .good t => ⟨some t, none⟩

/-- `storeTokenToFile` (`pkg/storage/filesystem.go`): overwrites the file. -/
def storeTokenToFile (t : Token) (_ : FileState) : FileState := .good t

/-- Model of `AuthError`: operation, message, optional underlying error
message. -/
structure AuthErrorM where
  op : String
  message : String
  err : Option String
deriving Repr, DecidableEq

/-- `AuthError.Error()`: `"auth <op>: <message>"`, with `": <err>"` appended
when an underlying error is present. -/
def AuthErrorM.render (e : AuthErrorM) : String :=
  match e.err with
  | some u => "auth " ++ e.op ++ ": " ++ e.message ++ ": " ++ u
  | none => "auth " ++ e.op ++ ": " ++ e.message

/-- Outcome of one network token exchange (`tokenSource.Token()`). -/
inductive TransportResult
  | success (t : Token)
  | failure (msg : String)
deriving Repr, DecidableEq

/-- `RefreshToken` (enhanced authenticator): refuse when no refresh token is
present; on a transport error wrap it; on success validate the new token's
structure (failure is an error, nothing persisted) and then persist it via
the store. The context-deadline special case only changes the wrapper text
and is subsumed in the failure message. -/
def RefreshTokenM (token : Token) (exchange : TransportResult) (file : FileState) :
    Except AuthErrorM Token × FileState :=
  if token.refreshToken = "" then
    (.error ⟨"refresh_token", "no refresh token available", none⟩, file)
  else
    match exchange with
    | .failure m => (.error ⟨"refresh_token", "failed to refresh token", some m⟩, file)
    | .success nt =>
      match validateTokenStructure (some nt) with
      | .error e =>
        (.error ⟨"validate_refreshed_token", "refreshed token validation failed", some e⟩, file)
      | .ok _ => (.ok nt, storeTokenToFile nt file)

/-- The retry loop body of `refreshTokenWithRetry`, recursing on the remaining
attempt budget. Returns the successful token (if any), the last error seen,
the store state, and the number of `RefreshToken` calls (each performing one
transport exchange). A non-retryable error breaks the loop immediately. -/
def refreshRetryAux (token : Token) (exchange : Nat → TransportResult) (file : FileState) :
    Nat → Nat → Option Token × Option AuthErrorM × FileState × Nat
  | _, 0 => (none, none, file, 0)
  | start, fuel + 1 =>
    match RefreshTokenM token (exchange start) file with
    | (.ok t, file2) => (some t, none, file2, 1)
    | (.error e, file2) =>
      if isRetryableError (some e.render) then
        match refreshRetryAux token exchange file2 (start + 1) fuel with
        | (r, le, file3, n) => (r, some (le.getD e), file3, n + 1)
      else (none, some e, file2, 1)

/-- The final wrapped error of `refreshTokenWithRetry`:
`"token refresh failed after %d attempts: %w"`. -/
def refreshFailedMsg (maxAttempts : Nat) (lastErr : Option AuthErrorM) : String :=
  "token refresh failed after " ++ toString maxAttempts ++ " attempts: " ++
    (match lastErr with
     | some e => e.render
     | none => "<nil>")

/-- `refreshTokenWithRetry` on the non-join path (no refresh in flight at
entry, which in the serialized model is always the case): run the retry loop
with budget `RetryMaxAttempts`; report the result, the store state, and the
transport call count. -/
def refreshTokenWithRetryM (cfg : RefreshConfig) (token : Token)
    (exchange : Nat → TransportResult) (file : FileState) :
    Except String Token × FileState × Nat :=
  match refreshRetryAux token exchange file 0 cfg.retryMaxAttempts with
  | (some t, _, file2, n) => (.ok t, file2, n)
  | (none, le, file2, n) => (.error (refreshFailedMsg cfg.retryMaxAttempts le), file2, n)

/-- The authenticator's token cache: `cachedToken` and `cachedTokenTime`. -/
structure CacheState where
  cachedToken : Option Token
  cachedTokenTime : Int
deriving Repr, DecidableEq

/-- The cache of a freshly constructed authenticator. -/
def emptyCache : CacheState := ⟨none, 0⟩

/-- The cache check of `GetValidToken` (performed identically under the read
lock and again under the write lock): a hit needs a cached token whose age
`time.Since(cachedTokenTime)` is below `cacheValidFor` and which is not
expired per `IsTokenExpired`. -/
def cacheHit (cacheValidFor now : Int) (c : CacheState) : Option Token :=
  match c.cachedToken with
  | none => none
  | some t =>
    if now - c.cachedTokenTime < cacheValidFor ∧ IsTokenExpired (some t) now = false then some t
    else none

/-- Mutable authenticator state visible to one serialized `GetValidToken`
call: the token cache and the credential-store file. -/
structure AuthS where
  cache : CacheState
  file : FileState
deriving Repr, DecidableEq

/-- Decidable equality for `Except` results, used to evaluate the models on
concrete inputs. -/
instance {ε α : Type} [DecidableEq ε] [DecidableEq α] : DecidableEq (Except ε α)
  | .ok a, .ok b => decidable_of_iff (a = b) (by simp)
  | .ok _, .error _ => .isFalse (by simp)
  | .error _, .ok _ => .isFalse (by simp)
  | .error a, .error b => decidable_of_iff (a = b) (by simp)

/-- Result of one `GetValidToken` call: the returned value, the state after
the call, and the number of transport exchanges performed during the call. -/
structure GVTOut where
  result : Except AuthErrorM Token
  state : AuthS
  transportCalls : Nat
deriving Repr, DecidableEq

/-- `GetValidToken` (enhanced authenticator), with the store's `LoadToken`
response abstracted as `lo`: cache check; load (an error surfaces as a
`load_token` failure, a nil token without error as the no-token error);
structural validation; refresh when expired, with the grace-period fallback
(which caches the old token via `updateCache`) on refresh failure; cache
update on the success paths. -/
def getValidTokenCore (cfg : RefreshConfig) (cacheValidFor now : Int)
    (exchange : Nat → TransportResult) (lo : LoadOutcome) (s : AuthS) : GVTOut :=
  match cacheHit cacheValidFor now s.cache with
  | some t => ⟨.ok t, s, 0⟩
  | none =>
    match lo.err with
    | some er =>
      ⟨.error ⟨"load_token", "failed to load stored token", some (renderStorageErr er)⟩, s, 0⟩
    | none =>
      match lo.token with
      | none => ⟨.error ⟨"load_token", "no token stored - authentication required", none⟩, s, 0⟩
      | some t =>
        match validateTokenStructure (some t) with
        | .error e => ⟨.error ⟨"validate_token", "token validation failed", some e⟩, s, 0⟩
        | .ok _ =>
          if IsTokenExpired (some t) now then
            if t.refreshToken = "" then
              ⟨.error ⟨"refresh_token",
                "token expired and no refresh token available - re-authentication required",
                none⟩, s, 0⟩
            else
              match refreshTokenWithRetryM cfg t exchange s.file with
              | (.ok nt, file2, n) => ⟨.ok nt, ⟨⟨some nt, now⟩, file2⟩, n⟩
              | (.error em, file2, n) =>
                if canUseTokenDuringGracePeriod cfg (some t) now then
                  ⟨.ok t, ⟨⟨some t, now⟩, file2⟩, n⟩
                else
                  ⟨.error ⟨"refresh_token",
                    "failed to refresh expired token and grace period exceeded", some em⟩,
                    ⟨s.cache, file2⟩, n⟩
          else ⟨.ok t, ⟨⟨some t, now⟩, s.file⟩, 0⟩

/-- `GetValidToken` against the filesystem credential store: the `LoadToken`
response is computed from the store file by `loadTokenFromFile`. -/
def getValidTokenM (cfg : RefreshConfig) (cacheValidFor now : Int)
    (exchange : Nat → TransportResult) (s : AuthS) : GVTOut :=
  getValidTokenCore cfg cacheValidFor now exchange (loadTokenFromFile s.file) s

/-- N concurrent callers of `GetValidToken`. The authenticator's write mutex
serializes the call bodies, so a group of concurrent callers at time `now`
executes as the sequential iteration of the per-call state transformer.
Returns every caller's result, the final state, and the total number of
transport exchanges. -/
def runCallers (cfg : RefreshConfig) (cacheValidFor now : Int)
    (exchange : Nat → TransportResult) : Nat → AuthS → List (Except AuthErrorM Token) × AuthS × Nat
  | 0, s => ([], s, 0)
  | n + 1, s =>
    let o := getValidTokenM cfg cacheValidFor now exchange s
    match runCallers cfg cacheValidFor now exchange n o.state with
    | (rs, s2, c) => (o.result :: rs, s2, o.transportCalls + c)

/-- One observable event while `waitForRefresh` blocks in its `select`:
the caller's context is cancelled, the `RefreshLockTimeout` timer fires, or
a 100ms ticker tick observes the in-flight flag. -/
inductive WaitEvent
  | ctxDone (msg : String)
  | timeoutFired
  | tick (isRefreshing : Bool)
deriving Repr, DecidableEq

/-- Result of `waitForRefresh`: the context's error, the
`"timeout waiting for refresh to complete"` error, the re-read of the
persisted token, or still pending (trace exhausted). -/
inductive WaitOutcome
  | ctxErr (msg : String)
  | lockTimeout
  | loaded (lo : LoadOutcome)
  | pending
deriving Repr, DecidableEq

/-- `waitForRefresh` (auth package) over an event trace: loop on ticks that
still see the in-flight flag; stop on cancellation, on the lock-timeout
timer, or on the first tick seeing the flag cleared, in which case the token
is re-read from the credential store (`lo`). -/
def waitForRefreshM (lo : LoadOutcome) : List WaitEvent → WaitOutcome
  | [] => .pending
  | .ctxDone m :: _ => .ctxErr m
  | .timeoutFired :: _ => .lockTimeout
  | .tick true :: rest => waitForRefreshM lo rest
  | .tick false :: _ => .loaded lo

/-- Entry of `refreshTokenWithRetry`: when a refresh is already in flight the
caller joins via `waitForRefresh` and performs no transport exchange at all;
otherwise it runs the retry loop. The second component counts the caller's
own transport exchanges. -/
def refreshTokenWithRetryEntry (cfg : RefreshConfig) (isRefreshing : Bool) (lo : LoadOutcome)
    (events : List WaitEvent) (token : Token) (exchange : Nat → TransportResult)
    (file : FileState) : (WaitOutcome ⊕ (Except String Token × FileState × Nat)) × Nat :=
  if isRefreshing then (.inl (waitForRefreshM lo events), 0)
  else
    let r := refreshTokenWithRetryM cfg token exchange file
    (.inr r, r.2.2)

/-- Model of `RefreshState` (timestamps as `Int` nanoseconds, the error as a
rendered message). -/
structure RefreshStateM where
  isRefreshing : Bool
  lastRefreshAttempt : Int
  lastRefreshSuccess : Int
  refreshAttempts : Nat
  lastError : Option String
deriving Repr, DecidableEq

/-- The zero `RefreshState` installed at construction and on clear. -/
def emptyRefreshState : RefreshStateM := ⟨false, 0, 0, 0, none⟩

/-- Authenticator state including the refresh state, as touched by
`ClearAuthentication`. -/
structure FullAuthS where
  cache : CacheState
  file : FileState
  refreshState : RefreshStateM
deriving Repr, DecidableEq

/-- `ClearAuthentication` (enhanced authenticator): if `store.ClearToken()`
fails (`clearErr` models its error result) the wrapped error is returned at
once and neither the cache nor the refresh state is touched; on success the
file is removed, the cache is emptied (`cachedToken = nil`, zero timestamp)
and the refresh state is reset. -/
def ClearAuthenticationM (clearErr : Option String) (s : FullAuthS) :
    Except AuthErrorM Unit × FullAuthS :=
  match clearErr with
  | some e => (.error ⟨"clear_token", "failed to clear stored token", some e⟩, s)
  | none => (.ok (), ⟨⟨none, 0⟩, .absent, emptyRefreshState⟩)

/-- Sample stored token whose expiry instant is 0, used to evaluate the
models on concrete inputs. -/
def tokenExpiredS : Token := ⟨"expired-token-1234", "refresh-token-1234", "Bearer", some 0⟩

/-- Sample token as returned by a successful exchange, expiring far in the
future. -/
def tokenFreshS : Token := ⟨"fresh-token-123456", "refresh-token-5678", "Bearer", some (1000 * minute)⟩

/-- Sample refresh configuration: 3 attempts, 1s base delay, 100s max delay,
multiplier 2, 5 minute grace period. -/
def cfgSample : RefreshConfig := ⟨1, 3, second, 100 * second, 2, 1, 5 * minute, minute, 30 * second⟩

/-- Sample configuration with all numeric fields positive but a backoff
multiplier below 1. -/
def cfgShrinking : RefreshConfig := ⟨1, 3, second, 100 * second, 1/2, 1, 5 * minute, minute, 30 * second⟩

/-- Transport oracle that always fails with a non-retryable message. -/
def failRevoked : Nat → TransportResult := fun _ => .failure "revoked"

/-- Transport oracle that always fails with a retryable `503` message. -/
def fail503 : Nat → TransportResult := fun _ => .failure "503"

/-- Transport oracle that always succeeds with `tokenFreshS`. -/
def succeedFresh : Nat → TransportResult := fun _ => .success tokenFreshS

/-- Transport oracle failing twice with a retryable `503` and then with a
non-retryable message. -/
def exchMixed : Nat → TransportResult :=
  fun j => if j < 2 then .failure "503" else .failure "revoked"

/-- The pre-jitter delay equals `min (base * multiplier ^ attempt) maxDelay`. -/
theorem calcPreJitterDelay_eq_min (cfg : RefreshConfig) (attempt : Nat) :
    calcPreJitterDelay cfg attempt =
      min ((cfg.retryBaseDelay : ℚ) * cfg.retryMultiplier ^ attempt) (cfg.retryMaxDelay : ℚ) := by
  simp only [calcPreJitterDelay]
  split
  · rename_i h
    exact (min_eq_right (le_of_lt h)).symm
  · rename_i h
    exact (min_eq_left (not_lt.mp h)).symm

/-- C8: `IsTokenExpired(token)` returns true iff the token is non-nil, its
expiry is set, and the expiry instant is before `now + TokenRefreshThreshold`
(5 minutes); a token with absent expiry is never considered expired, and a
token expiring 2 minutes from now is considered to need refresh. -/
theorem C8_is_token_expired :
    (∀ (tok : Option Token) (now : Int), IsTokenExpired tok now = true ↔
      ∃ t e, tok = some t ∧ t.expiry = some e ∧ e < now + TokenRefreshThreshold) ∧
    (∀ (t : Token) (now : Int), t.expiry = none → IsTokenExpired (some t) now = false) ∧
    (∀ (now : Int) (a r ty : String),
      IsTokenExpired (some ⟨a, r, ty, some (now + 2 * minute)⟩) now = true) := by
  refine ⟨?_, ?_, ?_⟩
  · intro tok now
    cases tok with
    | none => simp [IsTokenExpired]
    | some t =>
      cases h : t.expiry with
      | none => simp [IsTokenExpired, h]
      | some e => simp [IsTokenExpired, h]
  · intro t now h
    simp [IsTokenExpired, h]
  · intro now a r ty
    have hm : (0 : Int) < minute := by norm_num [minute, second]
    simp only [IsTokenExpired, TokenRefreshThreshold, decide_eq_true_eq]
    omega

/-- C8 witness: a token with absent expiry is not expired at time 0. -/
theorem C8_witness : IsTokenExpired (some ⟨"access-token-xyz", "", "Bearer", none⟩) 0 = false :=
  C8_is_token_expired.2.1 ⟨"access-token-xyz", "", "Bearer", none⟩ 0 rfl

/-- C5 (amended): provided the backoff multiplier is at least 1 (and the base
delay positive), the pre-jitter delay of `calculateBackoffDelay` is
non-decreasing in the attempt index; the pre-jitter delay never exceeds
`RetryMaxDelay`, and the post-jitter result is at least `RetryBaseDelay` for
every jitter draw — the last two hold for every configuration. -/
theorem C5_backoff_bounds (cfg : RefreshConfig) :
    (0 < cfg.retryBaseDelay → 1 ≤ cfg.retryMultiplier →
      ∀ k : Nat, calcPreJitterDelay cfg k ≤ calcPreJitterDelay cfg (k + 1)) ∧
    (∀ k : Nat, calcPreJitterDelay cfg k ≤ (cfg.retryMaxDelay : ℚ)) ∧
    (∀ (k : Nat) (r : ℚ), (cfg.retryBaseDelay : ℚ) ≤ calculateBackoffDelay cfg k r) := by
  refine ⟨?_, ?_, ?_⟩
  · intro hb hm k
    have hb0 : (0 : ℚ) ≤ (cfg.retryBaseDelay : ℚ) := by exact_mod_cast hb.le
    rw [calcPreJitterDelay_eq_min, calcPreJitterDelay_eq_min]
    refine min_le_min ?_ le_rfl
    exact mul_le_mul_of_nonneg_left (pow_le_pow_right₀ hm (Nat.le_succ k)) hb0
  · intro k
    rw [calcPreJitterDelay_eq_min]
    exact min_le_right _ _
  · intro k r
    simp only [calculateBackoffDelay]
    split
    · exact le_rfl
    · rename_i h
      exact not_lt.mp h

/-- C5 counterexample: with the multiplier `1/2` — a configuration all of
whose numeric fields are positive — the pre-jitter delay strictly decreases
from attempt index 1 to attempt index 2, refuting the claimed monotonicity
for every positive configuration. -/
theorem C5_counterexample :
    (0 < cfgShrinking.backgroundRefreshThreshold ∧ 0 < cfgShrinking.retryMaxAttempts ∧
     0 < cfgShrinking.retryBaseDelay ∧ 0 < cfgShrinking.retryMaxDelay ∧
     0 < cfgShrinking.retryMultiplier ∧ 0 < cfgShrinking.jitterPercent ∧
     0 < cfgShrinking.gracePeriod ∧ 0 < cfgShrinking.backgroundRefreshInterval ∧
     0 < cfgShrinking.refreshLockTimeout) ∧
    calcPreJitterDelay cfgShrinking 2 < calcPreJitterDelay cfgShrinking 1 := by
  constructor
  · norm_num [cfgShrinking, second, minute]
  · norm_num [calcPreJitterDelay, cfgShrinking, second]

/-- C5 witness: the amended monotonicity at the sample configuration
(multiplier 2) between attempt indices 1 and 2, and the unconditional
base-delay floor at the multiplier-1/2 configuration. -/
theorem C5_witness :
    calcPreJitterDelay cfgSample 1 ≤ calcPreJitterDelay cfgSample 2 ∧
    (cfgShrinking.retryBaseDelay : ℚ) ≤ calculateBackoffDelay cfgShrinking 2 0 :=
  ⟨(C5_backoff_bounds cfgSample).1 (by norm_num [cfgSample, second]) (by norm_num [cfgSample]) 1,
   (C5_backoff_bounds cfgShrinking).2.2 2 0⟩

/-- C4 counterexample: with the filesystem credential store and no token file
(nothing stored, no prior authorization), `GetValidToken` returns the
`load_token` storage-failure error wrapping the NotFound sentinel, not the
"no token stored - authentication required" (NoToken) error claimed. -/
theorem C4_counterexample :
    (getValidTokenM cfgSample minute 0 failRevoked ⟨emptyCache, .absent⟩).result =
      .error ⟨"load_token", "failed to load stored token",
        some "token file does not exist: storage item not found"⟩ ∧
    (getValidTokenM cfgSample minute 0 failRevoked ⟨emptyCache, .absent⟩).result ≠
      .error ⟨"load_token", "no token stored - authentication required", none⟩ := by
  constructor
  · rfl
  · decide

/-- C4 (amended): `GetValidToken` produces the NoToken
("no token stored - authentication required") error only when the store's
`LoadToken` returns a nil token with a nil error; every `LoadToken` error —
including the filesystem store's NotFound for a missing token file, exactly
like Corrupted — surfaces as a hard `load_token` storage failure. -/
theorem C4_notfound_surfaces_as_storage_error (cfg : RefreshConfig)
    (cacheValidFor now : Int) (exchange : Nat → TransportResult) (s : AuthS)
    (hmiss : cacheHit cacheValidFor now s.cache = none) :
    (∀ er, (getValidTokenCore cfg cacheValidFor now exchange ⟨none, some er⟩ s).result =
      .error ⟨"load_token", "failed to load stored token", some (renderStorageErr er)⟩) ∧
    ((getValidTokenCore cfg cacheValidFor now exchange ⟨none, none⟩ s).result =
      .error ⟨"load_token", "no token stored - authentication required", none⟩) ∧
    loadTokenFromFile .absent = ⟨none, some .notFound⟩ ∧
    loadTokenFromFile .corrupt = ⟨none, some .corrupted⟩ := by
  refine ⟨fun er => ?_, ?_, rfl, rfl⟩ <;> simp [getValidTokenCore, hmiss]

/-- C4 witness: the amended claim evaluated at the missing-file load outcome
with an empty cache. -/
theorem C4_witness :
    (getValidTokenCore cfgSample minute 0 failRevoked ⟨none, some .notFound⟩
      ⟨emptyCache, .absent⟩).result =
      .error ⟨"load_token", "failed to load stored token",
        some "token file does not exist: storage item not found"⟩ :=
  (C4_notfound_surfaces_as_storage_error cfgSample minute 0 failRevoked
    ⟨emptyCache, .absent⟩ rfl).1 .notFound

/-- C10: when the store's `ClearToken` fails, `ClearAuthentication` returns
the wrapped error and leaves the cached token, its retrieval timestamp, and
the refresh state unchanged; consequently a later `GetValidToken` within the
cache validity window still serves the previously cached token with no
transport exchange. -/
theorem C10_clear_failure_preserves_state :
    (∀ (e : String) (s : FullAuthS), ClearAuthenticationM (some e) s =
      (.error ⟨"clear_token", "failed to clear stored token", some e⟩, s)) ∧
    (∀ (cfg : RefreshConfig) (cacheValidFor now : Int) (exchange : Nat → TransportResult)
      (e : String) (s : FullAuthS) (t : Token),
      s.cache.cachedToken = some t →
      now - s.cache.cachedTokenTime < cacheValidFor →
      IsTokenExpired (some t) now = false →
      getValidTokenM cfg cacheValidFor now exchange
          ⟨(ClearAuthenticationM (some e) s).2.cache, (ClearAuthenticationM (some e) s).2.file⟩ =
        ⟨.ok t, ⟨s.cache, s.file⟩, 0⟩) := by
  refine ⟨fun e s => rfl, ?_⟩
  intro cfg cacheValidFor now exchange e s t ht hfresh hexp
  have hhit : cacheHit cacheValidFor now s.cache = some t := by
    simp [cacheHit, ht, hfresh, hexp]
  simp [ClearAuthenticationM, getValidTokenM, getValidTokenCore, hhit]

/-- C10 witness: a failed clear at a state caching a fresh valid token, after
which `GetValidToken` still serves that token from the cache. -/
theorem C10_witness :
    getValidTokenM cfgSample minute 0 failRevoked
        ⟨(ClearAuthenticationM (some "disk full")
            ⟨⟨some tokenFreshS, 0⟩, .good tokenFreshS, emptyRefreshState⟩).2.cache,
         (ClearAuthenticationM (some "disk full")
            ⟨⟨some tokenFreshS, 0⟩, .good tokenFreshS, emptyRefreshState⟩).2.file⟩ =
      ⟨.ok tokenFreshS, ⟨⟨some tokenFreshS, 0⟩, .good tokenFreshS⟩, 0⟩ :=
  C10_clear_failure_preserves_state.2 cfgSample minute 0 failRevoked "disk full"
    ⟨⟨some tokenFreshS, 0⟩, .good tokenFreshS, emptyRefreshState⟩ tokenFreshS
    rfl (by decide) (by decide)

/-- C9: `validateTokenStructure` accepts a token iff its access value is
non-empty with byte length in `[MinTokenLength, MaxTokenLength]` and free of
NUL, CR, LF, and any present refresh value satisfies the same constraints;
and `RefreshToken` treats a provider-returned token failing this validation
as a refresh failure — an error, with nothing persisted to the store. -/
theorem C9_token_validation :
    (∀ t : Token, validateTokenStructure (some t) = .ok () ↔ tokenSpecValid t) ∧
    (∀ (t nt : Token) (file : FileState) (e : String),
      t.refreshToken ≠ "" →
      validateTokenStructure (some nt) = .error e →
      RefreshTokenM t (.success nt) file =
        (.error ⟨"validate_refreshed_token", "refreshed token validation failed", some e⟩,
          file)) := by
  have hctl : ∀ s : String, goContainsAnyCtl s = false ↔
      ∀ c ∈ s.data, c ≠ '\x00' ∧ c ≠ '\r' ∧ c ≠ '\n' := by
    intro s
    simp only [goContainsAnyCtl, List.any_eq_false, Bool.or_eq_true, decide_eq_true_eq,
      not_or, ne_eq, and_assoc]
  constructor
  · intro t
    unfold validateTokenStructure tokenSpecValid
    dsimp only
    split_ifs with h1 h2 h3 h4 h5 h6 h7 h8
    · simp [h1]
    · constructor
      · intro h; exact absurd h (by simp)
      · intro h; exact absurd h.2.1 (by omega)
    · constructor
      · intro h; exact absurd h (by simp)
      · intro h; exact absurd h.2.2.1 (by omega)
    · constructor
      · intro h; exact absurd h (by simp)
      · intro h
        rcases h with ⟨-, -, -, hc, -⟩
        rw [← hctl] at hc
        simp [h4] at hc
    · constructor
      · intro h; exact absurd h (by simp)
      · intro h
        rcases h with ⟨-, -, -, -, hr⟩
        rcases hr with hr | hr
        · exact h5 hr
        · exact absurd hr.1 (by omega)
    · constructor
      · intro h; exact absurd h (by simp)
      · intro h
        rcases h with ⟨-, -, -, -, hr⟩
        rcases hr with hr | hr
        · exact h5 hr
        · exact absurd hr.2.1 (by omega)
    · constructor
      · intro h; exact absurd h (by simp)
      · intro h
        rcases h with ⟨-, -, -, -, hr⟩
        rcases hr with hr | hr
        · exact h5 hr
        · rcases hr with ⟨-, -, hc⟩
          rw [← hctl] at hc
          simp [h8] at hc
    · constructor
      · intro _
        refine ⟨h1, by omega, by omega, (hctl _).mp (by simpa using h4), ?_⟩
        right
        exact ⟨by omega, by omega, (hctl _).mp (by simpa using h8)⟩
      · intro _; rfl
    · constructor
      · intro _
        refine ⟨h1, by omega, by omega, (hctl _).mp (by simpa using h4), ?_⟩
        left
        simpa using h5
      · intro _; rfl
  · intro t nt file e hrt hv
    simp [RefreshTokenM, hrt, hv]

/-- C9 witness: a provider-returned token with a too-short access value makes
`RefreshToken` fail with the validation error, leaving the store untouched. -/
theorem C9_witness :
    RefreshTokenM tokenExpiredS (.success ⟨"short", "", "Bearer", none⟩) .absent =
      (.error ⟨"validate_refreshed_token", "refreshed token validation failed",
        some "access token too short"⟩, .absent) :=
  C9_token_validation.2 tokenExpiredS ⟨"short", "", "Bearer", none⟩ .absent
    "access token too short" (by decide) (by decide)

/-- Helper for C6: if attempts `start..start+k-1` produce retryable errors
and attempt `start+k` produces a non-retryable error, the retry loop makes
exactly `k+1` `RefreshToken` calls (given enough budget). -/
theorem refreshRetryAux_stop (t : Token) (exchange : Nat → TransportResult) (file : FileState) :
    ∀ (k fuel start : Nat), k < fuel →
    (∀ j < k, ∃ ej, RefreshTokenM t (exchange (start + j)) file = (.error ej, file) ∧
       isRetryableError (some ej.render) = true) →
    (∀ ek, RefreshTokenM t (exchange (start + k)) file = (.error ek, file) →
       isRetryableError (some ek.render) = false) →
    (∃ ek, RefreshTokenM t (exchange (start + k)) file = (.error ek, file)) →
    (refreshRetryAux t exchange file start fuel).2.2.2 = k + 1 := by
  intro k
  induction k with
  | zero =>
    intro fuel start hf hpre hstop hex
    rcases hex with ⟨ek, hek⟩
    have hr := hstop ek hek
    cases fuel with
    | zero => omega
    | succ f =>
      rw [Nat.add_zero] at hek
      simp [refreshRetryAux, hek, hr]
  | succ k ih =>
    intro fuel start hf hpre hstop hex
    cases fuel with
    | zero => omega
    | succ f =>
      obtain ⟨e0, he0, hr0⟩ := hpre 0 (Nat.succ_pos k)
      rw [Nat.add_zero] at he0
      have hrec := ih f (start + 1) (by omega)
        (fun j hj => by
          obtain ⟨ej, hej, hrj⟩ := hpre (j + 1) (by omega)
          refine ⟨ej, ?_, hrj⟩
          rw [show start + 1 + j = start + (j + 1) from by omega]
          exact hej)
        (fun ek hek => by
          apply hstop ek
          rw [show start + (k + 1) = start + 1 + k from by omega]
          exact hek)
        (by
          rcases hex with ⟨ek, hek⟩
          exact ⟨ek, by rw [show start + 1 + k = start + (k + 1) from by omega]; exact hek⟩)
      rcases haux : refreshRetryAux t exchange file (start + 1) f with ⟨r, le, file3, n⟩
      have hn : n = k + 1 := by
        have h2 := hrec
        rw [haux] at h2
        exact h2
      simp [refreshRetryAux, he0, hr0, haux, hn]

/-- C6: `isRetryableError` is true iff the lowercased error message contains
one of the eleven transient-failure substrings; and when the first
non-retryable error appears at attempt index k (all earlier attempts failing
retryably), `refreshTokenWithRetry` stops immediately: exactly k+1 transport
exchanges happen, none after the non-retryable error. -/
theorem C6_retryable_classification :
    (∀ msg : String, isRetryableError (some msg) = true ↔
      ∃ p ∈ retryableErrors, ∃ l r : List Char, (goToLower msg).data = l ++ p.data ++ r) ∧
    (∀ (cfg : RefreshConfig) (t : Token) (exchange : Nat → TransportResult) (file : FileState)
      (k : Nat),
      k < cfg.retryMaxAttempts →
      (∀ j < k, ∃ ej, RefreshTokenM t (exchange j) file = (.error ej, file) ∧
        isRetryableError (some ej.render) = true) →
      (∀ ek, RefreshTokenM t (exchange k) file = (.error ek, file) →
        isRetryableError (some ek.render) = false) →
      (∃ ek, RefreshTokenM t (exchange k) file = (.error ek, file)) →
      (refreshTokenWithRetryM cfg t exchange file).2.2 = k + 1) := by
  constructor
  · intro msg
    simp only [isRetryableError, goStringContains, List.any_eq_true, decide_eq_true_eq]
    constructor
    · rintro ⟨p, hp, l, r, h⟩
      exact ⟨p, hp, l, r, h.symm⟩
    · rintro ⟨p, hp, l, r, h⟩
      exact ⟨p, hp, l, r, h.symm⟩
  · intro cfg t exchange file k hk hpre hstop hex
    have h := refreshRetryAux_stop t exchange file k cfg.retryMaxAttempts 0 hk
      (by simpa using hpre) (by simpa using hstop) (by simpa using hex)
    rw [refreshTokenWithRetryM]
    rcases haux : refreshRetryAux t exchange file 0 cfg.retryMaxAttempts with ⟨r, le, file2, n⟩
    rw [haux] at h
    cases r <;> simpa using h

/-- C6 witness: two retryable `503` failures followed by a non-retryable
failure stop the loop after exactly 3 transport exchanges. -/
theorem C6_witness :
    (refreshTokenWithRetryM cfgSample tokenExpiredS exchMixed (.good tokenExpiredS)).2.2 =
      2 + 1 := by
  refine C6_retryable_classification.2 cfgSample tokenExpiredS exchMixed (.good tokenExpiredS) 2
    (by decide) ?_ ?_ ?_
  · intro j hj
    interval_cases j <;>
      exact ⟨⟨"refresh_token", "failed to refresh token", some "503"⟩, by decide, by decide⟩
  · intro ek hek
    have hE : RefreshTokenM tokenExpiredS (exchMixed 2) (.good tokenExpiredS) =
        (.error ⟨"refresh_token", "failed to refresh token", some "revoked"⟩,
          .good tokenExpiredS) := by decide
    rw [hE] at hek
    simp only [Prod.mk.injEq, Except.error.injEq] at hek
    rw [← hek.1]
    decide
  · exact ⟨⟨"refresh_token", "failed to refresh token", some "revoked"⟩, by decide⟩

/-- Helper: `GetValidToken` on a cache miss with a stored, structurally valid,
expired token carrying a refresh token reduces to the refresh-or-grace
branch. -/
theorem getValidTokenM_refresh_path (cfg : RefreshConfig) (cacheValidFor now : Int)
    (exchange : Nat → TransportResult) (c : CacheState) (t : Token)
    (hmiss : cacheHit cacheValidFor now c = none)
    (hv : validateTokenStructure (some t) = .ok ())
    (hexp : IsTokenExpired (some t) now = true)
    (hrt : t.refreshToken ≠ "") :
    getValidTokenM cfg cacheValidFor now exchange ⟨c, .good t⟩ =
      match refreshTokenWithRetryM cfg t exchange (.good t) with
      | (.ok nt, file2, n) => ⟨.ok nt, ⟨⟨some nt, now⟩, file2⟩, n⟩
      | (.error em, file2, n) =>
        if canUseTokenDuringGracePeriod cfg (some t) now then ⟨.ok t, ⟨⟨some t, now⟩, file2⟩, n⟩
        else ⟨.error ⟨"refresh_token",
          "failed to refresh expired token and grace period exceeded", some em⟩,
          ⟨c, file2⟩, n⟩ := by
  unfold getValidTokenM getValidTokenCore loadTokenFromFile
  dsimp only
  rw [hmiss, hv, hexp]
  simp [hrt]

/-- C2: when the stored token has a set expiry and the retrying refresh fails,
`GetValidToken` serves the old expired token iff `now - expiry` is at most
`GracePeriod`; in particular a token expired by exactly `GracePeriod - 1s` is
served and one expired by `GracePeriod + 1s` yields the terminal
grace-exceeded authentication error. -/
theorem C2_grace_period_boundary (cfg : RefreshConfig) (cacheValidFor : Int)
    (exchange : Nat → TransportResult) (t : Token) (e : Int) (em : String)
    (file2 : FileState) (n : Nat)
    (hx : t.expiry = some e) (hrt : t.refreshToken ≠ "")
    (hv : validateTokenStructure (some t) = .ok ())
    (hfail : refreshTokenWithRetryM cfg t exchange (.good t) = (.error em, file2, n)) :
    (∀ now, IsTokenExpired (some t) now = true →
      ((getValidTokenM cfg cacheValidFor now exchange ⟨emptyCache, .good t⟩).result = .ok t ↔
        now - e ≤ cfg.gracePeriod)) ∧
    (∀ now, IsTokenExpired (some t) now = true → now - e = cfg.gracePeriod - second →
      (getValidTokenM cfg cacheValidFor now exchange ⟨emptyCache, .good t⟩).result = .ok t) ∧
    (∀ now, IsTokenExpired (some t) now = true → now - e = cfg.gracePeriod + second →
      (getValidTokenM cfg cacheValidFor now exchange ⟨emptyCache, .good t⟩).result =
        .error ⟨"refresh_token", "failed to refresh expired token and grace period exceeded",
          some em⟩) := by
  have hsec : (0 : Int) < second := by norm_num [second]
  have hred : ∀ now, IsTokenExpired (some t) now = true →
      (getValidTokenM cfg cacheValidFor now exchange ⟨emptyCache, .good t⟩).result =
        if now - e ≤ cfg.gracePeriod then .ok t
        else .error ⟨"refresh_token", "failed to refresh expired token and grace period exceeded",
          some em⟩ := by
    intro now hexp
    rw [getValidTokenM_refresh_path cfg cacheValidFor now exchange emptyCache t rfl hv hexp hrt,
      hfail]
    simp only [canUseTokenDuringGracePeriod, hx]
    by_cases h : now - e ≤ cfg.gracePeriod
    · simp [h]
    · simp [h]
  refine ⟨?_, ?_, ?_⟩
  · intro now hexp
    rw [hred now hexp]
    by_cases h : now - e ≤ cfg.gracePeriod
    · simp [h]
    · simp [h]
  · intro now hexp heq
    rw [hred now hexp, if_pos (by omega)]
  · intro now hexp heq
    rw [hred now hexp, if_neg (by omega)]

/-- C2 witness: with a 5-minute grace period and a persistently failing
exchange, a token expired by `GracePeriod - 1s` is served and one expired by
`GracePeriod + 1s` yields the terminal error. -/
theorem C2_witness :
    (getValidTokenM cfgSample minute (5 * minute - second) fail503
      ⟨emptyCache, .good tokenExpiredS⟩).result = .ok tokenExpiredS ∧
    (getValidTokenM cfgSample minute (5 * minute + second) fail503
      ⟨emptyCache, .good tokenExpiredS⟩).result =
      .error ⟨"refresh_token", "failed to refresh expired token and grace period exceeded",
        some "token refresh failed after 3 attempts: auth refresh_token: failed to refresh token: 503"⟩ :=
  ⟨(C2_grace_period_boundary cfgSample minute fail503 tokenExpiredS 0
      "token refresh failed after 3 attempts: auth refresh_token: failed to refresh token: 503"
      (.good tokenExpiredS) 3 rfl (by decide) (by decide) (by decide)).2.1
      (5 * minute - second) (by decide) (by decide),
   (C2_grace_period_boundary cfgSample minute fail503 tokenExpiredS 0
      "token refresh failed after 3 attempts: auth refresh_token: failed to refresh token: 503"
      (.good tokenExpiredS) 3 rfl (by decide) (by decide) (by decide)).2.2
      (5 * minute + second) (by decide) (by decide)⟩

/-- Helper: with a positive attempt budget the retry loop performs at least
one transport exchange. -/
theorem refreshRetryAux_calls_pos (t : Token) (exchange : Nat → TransportResult)
    (file : FileState) (start fuel : Nat) (hf : 0 < fuel) :
    1 ≤ (refreshRetryAux t exchange file start fuel).2.2.2 := by
  cases fuel with
  | zero => omega
  | succ f =>
    rcases h : RefreshTokenM t (exchange start) file with ⟨res, f2⟩
    cases res with
    | ok nt => simp [refreshRetryAux, h]
    | error e =>
      simp only [refreshRetryAux, h]
      split
      · rcases haux : refreshRetryAux t exchange f2 (start + 1) f with ⟨r, le, f3, n⟩
        simp [haux]
      · simp

/-- Helper: the transport-call count reported by `refreshTokenWithRetry` is
the count of its retry loop. -/
theorem refreshTokenWithRetryM_calls (cfg : RefreshConfig) (t : Token)
    (exchange : Nat → TransportResult) (file : FileState) :
    (refreshTokenWithRetryM cfg t exchange file).2.2 =
      (refreshRetryAux t exchange file 0 cfg.retryMaxAttempts).2.2.2 := by
  rw [refreshTokenWithRetryM]
  rcases haux : refreshRetryAux t exchange file 0 cfg.retryMaxAttempts with ⟨r, le, f2, n⟩
  cases r <;> simp

/-- C3 counterexample: a token served under the grace fallback is cached, and
a second call arrives 30s later — inside the 1-minute cache validity window
and inside the 5-minute grace window — yet the second call performs a
transport exchange (re-attempts the refresh) instead of returning the cached
token without one, because the cached token still fails `IsTokenExpired`. -/
theorem C3_counterexample :
    (getValidTokenM cfgSample minute minute failRevoked
      ⟨emptyCache, .good tokenExpiredS⟩).state.cache = ⟨some tokenExpiredS, minute⟩ ∧
    (minute + 30 * second) - minute < minute ∧
    (minute + 30 * second) - 0 ≤ cfgSample.gracePeriod ∧
    (getValidTokenM cfgSample minute (minute + 30 * second) failRevoked
      (getValidTokenM cfgSample minute minute failRevoked
        ⟨emptyCache, .good tokenExpiredS⟩).state).transportCalls ≠ 0 := by
  refine ⟨by decide, by decide, by decide, by decide⟩

/-- C3 (amended): a token served under the grace fallback is cached via
`updateCache`, but because it still fails `IsTokenExpired` the cache check
never returns it: a subsequent call within the cache validity window (and
still inside the grace window) bypasses the cache, re-attempts the refresh
with at least one transport exchange, and serves the token again only through
the grace fallback. -/
theorem C3_grace_cache_bypassed (cfg : RefreshConfig) (cacheValidFor : Int)
    (exchange : Nat → TransportResult) (t : Token) (e : Int) (em : String) (n : Nat)
    (hx : t.expiry = some e) (hrt : t.refreshToken ≠ "")
    (hv : validateTokenStructure (some t) = .ok ())
    (hfail : refreshTokenWithRetryM cfg t exchange (.good t) = (.error em, .good t, n))
    (hatt : 0 < cfg.retryMaxAttempts) :
    (∀ now, IsTokenExpired (some t) now = true → now - e ≤ cfg.gracePeriod →
      getValidTokenM cfg cacheValidFor now exchange ⟨emptyCache, .good t⟩ =
        ⟨.ok t, ⟨⟨some t, now⟩, .good t⟩, n⟩) ∧
    (∀ now time, IsTokenExpired (some t) now = true →
      cacheHit cacheValidFor now ⟨some t, time⟩ = none) ∧
    (∀ now2 time, IsTokenExpired (some t) now2 = true → now2 - e ≤ cfg.gracePeriod →
      getValidTokenM cfg cacheValidFor now2 exchange ⟨⟨some t, time⟩, .good t⟩ =
        ⟨.ok t, ⟨⟨some t, now2⟩, .good t⟩, n⟩) ∧
    1 ≤ n := by
  have hbypass : ∀ now time, IsTokenExpired (some t) now = true →
      cacheHit cacheValidFor now ⟨some t, time⟩ = none := by
    intro now time hexp
    simp [cacheHit, hexp]
  have hcall : ∀ (c : CacheState) now, cacheHit cacheValidFor now c = none →
      IsTokenExpired (some t) now = true → now - e ≤ cfg.gracePeriod →
      getValidTokenM cfg cacheValidFor now exchange ⟨c, .good t⟩ =
        ⟨.ok t, ⟨⟨some t, now⟩, .good t⟩, n⟩ := by
    intro c now hmiss hexp hgrace
    rw [getValidTokenM_refresh_path cfg cacheValidFor now exchange c t hmiss hv hexp hrt, hfail]
    simp [canUseTokenDuringGracePeriod, hx, hgrace]
  refine ⟨fun now hexp hgrace => hcall emptyCache now rfl hexp hgrace, hbypass,
    fun now2 time hexp hgrace => hcall ⟨some t, time⟩ now2 (hbypass now2 time hexp) hexp hgrace,
    ?_⟩
  have h1 := refreshTokenWithRetryM_calls cfg t exchange (.good t)
  rw [hfail] at h1
  simp only at h1
  have h2 := refreshRetryAux_calls_pos t exchange (.good t) 0 cfg.retryMaxAttempts hatt
  omega

/-- C3 witness: the amended behaviour at the concrete 30s-later second call,
which re-attempts the refresh (one transport exchange) and serves the grace
token again. -/
theorem C3_witness :
    getValidTokenM cfgSample minute (minute + 30 * second) failRevoked
        ⟨⟨some tokenExpiredS, minute⟩, .good tokenExpiredS⟩ =
      ⟨.ok tokenExpiredS, ⟨⟨some tokenExpiredS, minute + 30 * second⟩, .good tokenExpiredS⟩, 1⟩ :=
  (C3_grace_cache_bypassed cfgSample minute failRevoked tokenExpiredS 0
      "token refresh failed after 3 attempts: auth refresh_token: failed to refresh token: revoked"
      1 rfl (by decide) (by decide) (by decide) (by decide)).2.2.1
    (minute + 30 * second) minute (by decide) (by decide)

/-- C7: when a refresh is already in flight, a joining caller performs no
transport exchange and is routed to `waitForRefresh`, which returns the
context's error on cancellation, the timeout error when `RefreshLockTimeout`
elapses first, and otherwise — on the first tick observing the in-flight flag
cleared — the token re-read from the credential store. -/
theorem C7_join_waits_without_refresh :
    (∀ (cfg : RefreshConfig) (lo : LoadOutcome) (events : List WaitEvent) (t : Token)
      (exchange : Nat → TransportResult) (file : FileState),
      (refreshTokenWithRetryEntry cfg true lo events t exchange file).2 = 0 ∧
      (refreshTokenWithRetryEntry cfg true lo events t exchange file).1 =
        .inl (waitForRefreshM lo events)) ∧
    (∀ (lo : LoadOutcome) (events : List WaitEvent) (n : Nat) (m : String),
      events[n]? = some (.ctxDone m) → (∀ j < n, events[j]? = some (.tick true)) →
      waitForRefreshM lo events = .ctxErr m) ∧
    (∀ (lo : LoadOutcome) (events : List WaitEvent) (n : Nat),
      events[n]? = some .timeoutFired → (∀ j < n, events[j]? = some (.tick true)) →
      waitForRefreshM lo events = .lockTimeout) ∧
    (∀ (lo : LoadOutcome) (events : List WaitEvent) (n : Nat),
      events[n]? = some (.tick false) → (∀ j < n, events[j]? = some (.tick true)) →
      waitForRefreshM lo events = .loaded lo) := by
  have hskip : ∀ (lo : LoadOutcome) (events : List WaitEvent) (n : Nat) (ev : WaitEvent),
      ev ≠ .tick true →
      events[n]? = some ev → (∀ j < n, events[j]? = some (.tick true)) →
      waitForRefreshM lo events = waitForRefreshM lo [ev] := by
    intro lo events
    induction events with
    | nil => intro n ev hev h; simp at h
    | cons e0 rest ih =>
      intro n ev hev h hpre
      cases n with
      | zero =>
        simp only [List.getElem?_cons_zero, Option.some.injEq] at h
        subst h
        cases e0 with
        | ctxDone m => rfl
        | timeoutFired => rfl
        | tick b =>
          cases b with
          | false => rfl
          | true => exact absurd rfl hev
      | succ n2 =>
        have h0 := hpre 0 (Nat.succ_pos n2)
        simp only [List.getElem?_cons_zero, Option.some.injEq] at h0
        subst h0
        show waitForRefreshM lo rest = _
        exact ih n2 ev hev (by simpa using h) (fun j hj => by simpa using hpre (j + 1) (by omega))
  refine ⟨fun cfg lo events t exchange file => ⟨rfl, rfl⟩, ?_, ?_, ?_⟩
  · intro lo events n m h hpre
    rw [hskip lo events n _ (by simp) h hpre]
    rfl
  · intro lo events n h hpre
    rw [hskip lo events n _ (by simp) h hpre]
    rfl
  · intro lo events n h hpre
    rw [hskip lo events n _ (by simp) h hpre]
    rfl

/-- C7 witness: one tick still sees the flag, the next sees it cleared, and
the wait returns the store's load outcome. -/
theorem C7_witness :
    waitForRefreshM ⟨some tokenFreshS, none⟩ [.tick true, .tick false] =
      .loaded ⟨some tokenFreshS, none⟩ :=
  C7_join_waits_without_refresh.2.2.2 ⟨some tokenFreshS, none⟩ [.tick true, .tick false] 1
    (by decide) (by decide)

/-- Helper for C1: once a fresh valid token is cached at the current instant,
every further serialized caller is served from the cache with no transport
exchange and no state change. -/
theorem runCallers_cached (cfg : RefreshConfig) (cacheValidFor now : Int)
    (exchange : Nat → TransportResult) (t2 : Token) (f : FileState)
    (hcvf : 0 < cacheValidFor) (hexp2 : IsTokenExpired (some t2) now = false) :
    ∀ N, runCallers cfg cacheValidFor now exchange N ⟨⟨some t2, now⟩, f⟩ =
      (List.replicate N (.ok t2), ⟨⟨some t2, now⟩, f⟩, 0) := by
  have hhit : cacheHit cacheValidFor now ⟨some t2, now⟩ = some t2 := by
    simp [cacheHit, hexp2, sub_self, hcvf]
  have hone : getValidTokenM cfg cacheValidFor now exchange ⟨⟨some t2, now⟩, f⟩ =
      ⟨.ok t2, ⟨⟨some t2, now⟩, f⟩, 0⟩ := by
    simp [getValidTokenM, getValidTokenCore, hhit]
  intro N
  induction N with
  | zero => rfl
  | succ n2 ih => simp [runCallers, hone, ih, List.replicate_succ]

/-- C1 (amended): the write mutex serializes concurrent `getValidToken`
callers. When the first caller's refresh succeeds (in one exchange), the
whole group of `N+1` callers performs exactly one transport exchange and all
receive the same fresh token — the later callers hit the cache. When the
refresh fails terminally with the grace period exceeded, nothing usable is
cached, so every caller performs its own (serialized, never concurrent)
refresh attempt: `N` callers make `N` transport exchanges, all receiving the
same terminal error. -/
theorem C1_serialized_mutual_exclusion (cfg : RefreshConfig) (cacheValidFor now : Int)
    (t t2 : Token) (exchA exchB : Nat → TransportResult) (em : String)
    (hcvf : 0 < cacheValidFor)
    (hv : validateTokenStructure (some t) = .ok ())
    (hexp : IsTokenExpired (some t) now = true)
    (hrt : t.refreshToken ≠ "")
    (hokA : refreshTokenWithRetryM cfg t exchA (.good t) = (.ok t2, .good t2, 1))
    (hexp2 : IsTokenExpired (some t2) now = false)
    (hfailB : refreshTokenWithRetryM cfg t exchB (.good t) = (.error em, .good t, 1))
    (hgrace : canUseTokenDuringGracePeriod cfg (some t) now = false) :
    (∀ N, runCallers cfg cacheValidFor now exchA (N + 1) ⟨emptyCache, .good t⟩ =
      (List.replicate (N + 1) (.ok t2), ⟨⟨some t2, now⟩, .good t2⟩, 1)) ∧
    (∀ N, runCallers cfg cacheValidFor now exchB N ⟨emptyCache, .good t⟩ =
      (List.replicate N (.error ⟨"refresh_token",
        "failed to refresh expired token and grace period exceeded", some em⟩),
        ⟨emptyCache, .good t⟩, N)) := by
  constructor
  · have hfirst : getValidTokenM cfg cacheValidFor now exchA ⟨emptyCache, .good t⟩ =
        ⟨.ok t2, ⟨⟨some t2, now⟩, .good t2⟩, 1⟩ := by
      rw [getValidTokenM_refresh_path cfg cacheValidFor now exchA emptyCache t rfl hv hexp hrt,
        hokA]
    intro N
    simp [runCallers, hfirst, runCallers_cached cfg cacheValidFor now exchA t2 (.good t2)
      hcvf hexp2 N, List.replicate_succ]
  · have hone : getValidTokenM cfg cacheValidFor now exchB ⟨emptyCache, .good t⟩ =
        ⟨.error ⟨"refresh_token",
          "failed to refresh expired token and grace period exceeded", some em⟩,
          ⟨emptyCache, .good t⟩, 1⟩ := by
      rw [getValidTokenM_refresh_path cfg cacheValidFor now exchB emptyCache t rfl hv hexp hrt,
        hfailB]
      simp [hgrace]
    intro N
    induction N with
    | zero => rfl
    | succ n2 ih =>
      simp [runCallers, hone, ih, List.replicate_succ]
      omega

/-- C1 counterexample: two serialized callers finding an expired stored token
(empty cache) while the refresh transport fails terminally and the grace
period is exceeded make two transport exchanges, not exactly one, even though
both receive the same terminal error. -/
theorem C1_counterexample :
    (runCallers cfgSample minute (10 * minute) failRevoked 2
      ⟨emptyCache, .good tokenExpiredS⟩).2.2 = 2 ∧
    (2 : Nat) ≠ 1 ∧
    (∀ r ∈ (runCallers cfgSample minute (10 * minute) failRevoked 2
      ⟨emptyCache, .good tokenExpiredS⟩).1,
      r = .error ⟨"refresh_token", "failed to refresh expired token and grace period exceeded",
        some "token refresh failed after 3 attempts: auth refresh_token: failed to refresh token: revoked"⟩) := by
  refine ⟨by decide, by decide, by decide⟩

/-- C1 witness: with a succeeding transport two callers share one exchange
and one token; with a terminally failing transport two callers make two
exchanges and share one error. -/
theorem C1_witness :
    runCallers cfgSample minute (10 * minute) succeedFresh 2
        ⟨emptyCache, .good tokenExpiredS⟩ =
      (List.replicate 2 (.ok tokenFreshS),
        ⟨⟨some tokenFreshS, 10 * minute⟩, .good tokenFreshS⟩, 1) ∧
    runCallers cfgSample minute (10 * minute) failRevoked 2
        ⟨emptyCache, .good tokenExpiredS⟩ =
      (List.replicate 2 (.error ⟨"refresh_token",
        "failed to refresh expired token and grace period exceeded",
        some "token refresh failed after 3 attempts: auth refresh_token: failed to refresh token: revoked"⟩),
        ⟨emptyCache, .good tokenExpiredS⟩, 2) :=
  ⟨(C1_serialized_mutual_exclusion cfgSample minute (10 * minute) tokenExpiredS tokenFreshS
      succeedFresh failRevoked
      "token refresh failed after 3 attempts: auth refresh_token: failed to refresh token: revoked"
      (by decide) (by decide) (by decide) (by decide) (by decide) (by decide) (by decide)
      (by decide)).1 1,
   (C1_serialized_mutual_exclusion cfgSample minute (10 * minute) tokenExpiredS tokenFreshS
      succeedFresh failRevoked
      "token refresh failed after 3 attempts: auth refresh_token: failed to refresh token: revoked"
      (by decide) (by decide) (by decide) (by decide) (by decide) (by decide) (by decide)
      (by decide)).2 2⟩

end GeminiAuth
